import Mathlib

/-!
Shallow embedding of the Andor Shamrock spectrograph EPICS driver
(src/andorApp/src/shamrock.cpp).

The driver object state (`DriverState`) holds the fields of the C++ class
(`slitIsPresent_`, `flipperMirrorIsPresent_`, `numPixels_`, `calibration_`)
together with the asynPortDriver parameter library, modelled as total maps
from (address, parameter) to the stored value.  Vendor-SDK behaviour is an
oracle (`Device` for the run-time get/set calls, `InitDevice` for the
constructor-time queries); every SDK call and every publication to the host
framework is recorded in an event trace.  Float values carry no arithmetic
in this driver (they are only copied), so they are modelled by `Rat`; the
C narrowing cast double-to-float in writeFloat64 is the identity here.
Uninitialized C locals that can be read on SDK-failure paths are supplied
by a `Junk` record, so those paths stay well defined for arbitrary junk.
-/

namespace Shamrock

/-- asyn status result: asynSuccess or asynError. -/
inductive AsynStatus
  | success
  | error
  deriving DecidableEq

/-- MAX_SLITS from shamrock.cpp. -/
def MAX_SLITS : Nat := 4

/-- MAX_GRATINGS from shamrock.cpp. -/
def MAX_GRATINGS : Nat := 3

/-- MAX_FLIPPER_MIRRORS from shamrock.cpp. -/
def MAX_FLIPPER_MIRRORS : Nat := 2

/-- MAX_ADDR from shamrock.cpp. -/
def MAX_ADDR : Nat := 4

/-- The integer-valued parameters the driver creates, plus an opaque code for
any other parameter index that can reach writeInt32. -/
inductive IntParam
  | SRGrating
  | SRNumGratings
  | SRGratingExists
  | SRFlipperMirrorExists
  | SRFlipperMirrorPort
  | SRSlitExists
  | otherInt (n : Nat)
  deriving DecidableEq

/-- The float-valued parameters the driver creates, plus an opaque code for
any other parameter index that can reach writeFloat64. -/
inductive FloatParam
  | SRWavelength
  | SRMinWavelength
  | SRMaxWavelength
  | SRSlitSize
  | otherFloat (n : Nat)
  deriving DecidableEq

/-- The float32-array parameters servable by readFloat32Array. -/
inductive Float32ArrayParam
  | SRCalibration
  | otherArray (n : Nat)
  deriving DecidableEq

/-- Observable effects: every vendor-SDK call and every publication to the
host framework, in program order. -/
inductive Event
  | sdkInitCall
  | numberDevicesQuery
  | detectorQuery
  | setNumberPixelsCall (n : Int)
  | pixelSizeQuery
  | setPixelWidthCall (w : Rat)
  | numberPixelsQuery
  | pixelWidthQuery
  | slitPresentQuery (i : Nat)
  | numberGratingsQuery
  | wavelengthLimitsQuery (i : Nat)
  | flipperPresentQuery (i : Nat)
  | setGratingCall (v : Int)
  | setFlipperMirrorCall (i : Nat) (port : Int)
  | setWavelengthCall (w : Rat)
  | setSlitWidthCall (i : Nat) (w : Rat)
  | getFlipperMirrorQuery (i : Nat)
  | getGratingQuery
  | getWavelengthQuery
  | getSlitWidthQuery (i : Nat)
  | getCalibrationQuery
  | callParamCallbacks (addr : Nat)
  | publishCalibrationArray
  deriving DecidableEq

/-- Driver object state: private data members of the shamrock class plus the
asynPortDriver parameter library (intParams / floatParams). -/
structure DriverState where
  slitIsPresent : Nat → Bool
  flipperMirrorIsPresent : Nat → Bool
  numPixels : Nat
  calibration : List Rat
  intParams : Nat → IntParam → Int
  floatParams : Nat → FloatParam → Rat

/-- Run-time SDK oracle used by getStatus / writeInt32 / writeFloat64.
`none` (or `false` for set calls) models an SDK call returning a
non-success code. -/
structure Device where
  setGratingOk : Int → Bool
  setFlipperMirrorOk : Nat → Int → Bool
  setWavelengthOk : Rat → Bool
  setSlitWidthOk : Nat → Rat → Bool
  getFlipperMirrorRes : Nat → Option Int
  getGratingRes : Option Int
  getWavelengthRes : Option Rat
  getSlitWidthRes : Nat → Option Rat
  getCalibrationRes : Option (Nat → Rat)

/-- Constructor-time SDK oracle (spectrograph SDK plus the separate detector
SDK used by GetDetector / GetPixelSize). -/
structure InitDevice where
  sdkInitOk : Bool
  numberDevicesRes : Option Int
  getDetectorRes : Option (Int × Int)
  setNumberPixelsOk : Bool
  getPixelSizeRes : Option (Rat × Rat)
  setPixelWidthOk : Bool
  numberPixelsRes : Option Nat
  pixelWidthRes : Option Rat
  slitPresentRes : Nat → Option Int
  numberGratingsRes : Option Int
  wavelengthLimitsRes : Nat → Option (Rat × Rat)
  flipperPresentRes : Nat → Option Int

/-- Values of uninitialized C locals in the constructor, read only when the
corresponding SDK query fails (the C code keeps using the stale local). -/
structure Junk where
  present : Int
  numFlipperStatus : Int
  numGratings : Int
  minWavelength : Rat
  maxWavelength : Rat
  numPixels : Nat

/-- checkError: non-success SDK code becomes asynError (plus a log line,
which is not modelled). -/
def checkError (ok : Bool) : AsynStatus :=
  if ok then AsynStatus.success else AsynStatus.error

/-- asynPortDriver::setIntegerParam with an address: stores the value when
the address is inside the address space, else reports an error. -/
def setIntParamN (st : DriverState) (addr : Nat) (p : IntParam) (v : Int) :
    DriverState × AsynStatus :=
  if addr < MAX_ADDR then
    ({ st with intParams := fun a q => if a = addr ∧ q = p then v else st.intParams a q },
      AsynStatus.success)
  else (st, AsynStatus.error)

/-- setIntegerParam, ignoring the returned status (as most call sites do). -/
def setIntP (st : DriverState) (addr : Nat) (p : IntParam) (v : Int) : DriverState :=
  (setIntParamN st addr p v).1

/-- setIntegerParam at a C `int` address (the constructor's grating loops
can compute out-of-range indices). -/
def setIntParamZ (st : DriverState) (addr : Int) (p : IntParam) (v : Int) : DriverState :=
  if 0 ≤ addr then setIntP st addr.toNat p v else st

/-- asynPortDriver::setDoubleParam with an address. -/
def setFloatParamN (st : DriverState) (addr : Nat) (p : FloatParam) (v : Rat) :
    DriverState × AsynStatus :=
  if addr < MAX_ADDR then
    ({ st with floatParams := fun a q => if a = addr ∧ q = p then v else st.floatParams a q },
      AsynStatus.success)
  else (st, AsynStatus.error)

/-- setDoubleParam, ignoring the returned status. -/
def setFloatP (st : DriverState) (addr : Nat) (p : FloatParam) (v : Rat) : DriverState :=
  (setFloatParamN st addr p v).1

/-- The address fixup at the top of writeInt32 / writeFloat64:
`if (addr < 0) addr = 0`. -/
def clampAddr (addr : Int) : Nat :=
  if addr < 0 then 0 else addr.toNat

/-- getStatus lines 275-281: for each flipper mirror, skip it when absent,
otherwise read its port; a failed read aborts with the events so far. -/
def getFlipperLoop (dev : Device) : List Nat → DriverState → DriverState × List Event × Bool
  | [], st => (st, [], true)
  | i :: rest, st =>
    if st.flipperMirrorIsPresent i = false then getFlipperLoop dev rest st
    else
      match dev.getFlipperMirrorRes i with
      | none => (st, [Event.getFlipperMirrorQuery i], false)
      | some port =>
        let r := getFlipperLoop dev rest (setIntP st i IntParam.SRFlipperMirrorPort port)
        (r.1, Event.getFlipperMirrorQuery i :: r.2.1, r.2.2)

/-- getStatus lines 294-301: for each slit, first cache width 0, skip the
read when the slit is absent, otherwise read its width; a failed read
aborts with the events so far. -/
def getSlitLoop (dev : Device) : List Nat → DriverState → DriverState × List Event × Bool
  | [], st => (st, [], true)
  | i :: rest, st =>
    let st0 := setFloatP st i FloatParam.SRSlitSize 0
    if st0.slitIsPresent i = false then getSlitLoop dev rest st0
    else
      match dev.getSlitWidthRes i with
      | none => (st0, [Event.getSlitWidthQuery i], false)
      | some w =>
        let r := getSlitLoop dev rest (setFloatP st0 i FloatParam.SRSlitSize w)
        (r.1, Event.getSlitWidthQuery i :: r.2.1, r.2.2)

/-- shamrock::getStatus (lines 263-319): refresh flipper ports, grating,
wavelength, slit widths and the calibration table from the device, caching
each value; any failed read returns asynError at once.  On full success the
min/max wavelength at address 0 become the first and last calibration
entries, every address is published, and the calibration array is
published as one block. -/
def getStatus (dev : Device) (st : DriverState) : DriverState × List Event × AsynStatus :=
  let fl := getFlipperLoop dev (List.range MAX_FLIPPER_MIRRORS) st
  if fl.2.2 = false then (fl.1, fl.2.1, AsynStatus.error) else
  let ev1 := fl.2.1 ++ [Event.getGratingQuery]
  match dev.getGratingRes with
  | none => (fl.1, ev1, AsynStatus.error)
  | some grating =>
    let st2 := setIntP fl.1 0 IntParam.SRGrating grating
    let ev2 := ev1 ++ [Event.getWavelengthQuery]
    match dev.getWavelengthRes with
    | none => (st2, ev2, AsynStatus.error)
    | some wl =>
      let st3 := setFloatP st2 0 FloatParam.SRWavelength wl
      let sl := getSlitLoop dev (List.range MAX_SLITS) st3
      if sl.2.2 = false then (sl.1, ev2 ++ sl.2.1, AsynStatus.error) else
      let ev3 := ev2 ++ sl.2.1 ++ [Event.getCalibrationQuery]
      match dev.getCalibrationRes with
      | none => (sl.1, ev3, AsynStatus.error)
      | some f =>
        let st5 := { sl.1 with calibration := (List.range (sl.1).numPixels).map f }
        let st6 := setFloatP st5 0 FloatParam.SRMinWavelength (f 0)
        let st7 := setFloatP st6 0 FloatParam.SRMaxWavelength (f ((sl.1).numPixels - 1))
        (st7,
          ev3 ++ (List.range MAX_ADDR).map Event.callParamCallbacks
              ++ [Event.publishCalibrationArray],
          AsynStatus.success)

/-- shamrock::writeInt32 (lines 328-364): clamp the address, provisionally
store the value in the parameter library, forward recognized kinds to the
SDK (flipper-mirror port only when that mirror is present), then always run
getStatus, publish the address and return the status of the write part
(the getStatus result is discarded). -/
def writeInt32 (dev : Device) (st : DriverState) (function : IntParam)
    (addrIn : Int) (value : Int) : DriverState × List Event × AsynStatus :=
  let a := clampAddr addrIn
  let w := setIntParamN st a function value
  let act : List Event × AsynStatus :=
    match function with
    | IntParam.SRGrating =>
        ([Event.setGratingCall value], checkError (dev.setGratingOk value))
    | IntParam.SRFlipperMirrorPort =>
        if (w.1).flipperMirrorIsPresent a then
          ([Event.setFlipperMirrorCall a value], checkError (dev.setFlipperMirrorOk a value))
        else ([], w.2)
    | _ => ([], w.2)
  let r := getStatus dev w.1
  (r.1, act.1 ++ r.2.1 ++ [Event.callParamCallbacks a], act.2)

/-- shamrock::writeFloat64 (lines 371-404): clamp the address, provisionally
store the value, forward recognized kinds to the SDK (slit width only when
that slit is present), then always run getStatus, publish the address and
return the status of the write part. -/
def writeFloat64 (dev : Device) (st : DriverState) (function : FloatParam)
    (addrIn : Int) (value : Rat) : DriverState × List Event × AsynStatus :=
  let a := clampAddr addrIn
  let w := setFloatParamN st a function value
  let act : List Event × AsynStatus :=
    match function with
    | FloatParam.SRWavelength =>
        ([Event.setWavelengthCall value], checkError (dev.setWavelengthOk value))
    | FloatParam.SRSlitSize =>
        if (w.1).slitIsPresent a then
          ([Event.setSlitWidthCall a value], checkError (dev.setSlitWidthOk a value))
        else ([], w.2)
    | _ => ([], w.2)
  let r := getStatus dev w.1
  (r.1, act.1 ++ r.2.1 ++ [Event.callParamCallbacks a], act.2)

/-- shamrock::readFloat32Array (lines 412-424): for the calibration
parameter, report min(nElements, numPixels_) in nIn and copy that many
entries of the cached calibration buffer into the caller's array (the rest
of the caller's array is untouched); other parameters leave both outputs
untouched.  Always returns asynSuccess and makes no SDK call. -/
def readFloat32Array (st : DriverState) (function : Float32ArrayParam) (nElements : Nat)
    (pValue : List Rat) (nInPrev : Nat) :
    DriverState × List Rat × Nat × AsynStatus × List Event :=
  match function with
  | Float32ArrayParam.SRCalibration =>
      let nIn := if nElements < st.numPixels then nElements else st.numPixels
      (st, st.calibration.take nIn ++ pValue.drop nIn, nIn, AsynStatus.success, [])
  | Float32ArrayParam.otherArray _ => (st, pValue, nInPrev, AsynStatus.success, [])

/-- Constructor slit loop (lines 208-215): query presence of each slit,
cache the flag in the data member and the parameter library; a failed query
re-reads the stale local `present`. -/
def ctorSlitLoop (dev : InitDevice) : List Nat → DriverState → Int → DriverState × List Event × Int
  | [], st, p => (st, [], p)
  | i :: rest, st, p =>
    let p1 := match dev.slitPresentRes i with
      | some v => v
      | none => p
    let st1 := { st with slitIsPresent := fun j => if j = i then p1 == 1 else st.slitIsPresent j }
    let st2 := setIntP st1 i IntParam.SRSlitExists (if p1 == 1 then 1 else 0)
    let r := ctorSlitLoop dev rest st2 p1
    (r.1, Event.slitPresentQuery i :: r.2.1, r.2.2)

/-- Constructor grating loop (lines 223-229): for i = 1..numGratings mark
the grating as existing and cache its wavelength limits; a failed limits
query re-uses the stale locals. -/
def ctorGratingLoop (dev : InitDevice) :
    List Nat → DriverState → Rat → Rat → DriverState × List Event × Rat × Rat
  | [], st, mn, mx => (st, [], mn, mx)
  | i :: rest, st, mn, mx =>
    let st1 := setIntP st i IntParam.SRGratingExists 1
    let lims := match dev.wavelengthLimitsRes i with
      | some r => r
      | none => (mn, mx)
    let st2 := setFloatP st1 i FloatParam.SRMinWavelength lims.1
    let st3 := setFloatP st2 i FloatParam.SRMaxWavelength lims.2
    let r := ctorGratingLoop dev rest st3 lims.1 lims.2
    (r.1, Event.wavelengthLimitsQuery i :: r.2.1, r.2.2)

/-- Constructor loop at lines 230-232: `for (i=numGratings; i<MAX_GRATINGS; i++)`
marks SRGratingExists 0 at those addresses. -/
def ctorMarkAbsent : List Int → DriverState → DriverState
  | [], st => st
  | i :: rest, st => ctorMarkAbsent rest (setIntParamZ st i IntParam.SRGratingExists 0)

/-- Constructor flipper loop (lines 235-240): query presence of each flipper
mirror, cache the flag in the data member and the parameter library. -/
def ctorFlipperLoop (dev : InitDevice) : List Nat → DriverState → Int → DriverState × List Event × Int
  | [], st, p => (st, [], p)
  | i :: rest, st, p =>
    let p1 := match dev.flipperPresentRes i with
      | some v => v
      | none => p
    let st1 := { st with flipperMirrorIsPresent := fun j => if j = i then p1 == 1 else st.flipperMirrorIsPresent j }
    let st2 := setIntP st1 i IntParam.SRFlipperMirrorExists (if p1 == 1 then 1 else 0)
    let r := ctorFlipperLoop dev rest st2 p1
    (r.1, Event.flipperPresentQuery i :: r.2.1, r.2.2)

/-- Indices visited by the first constructor grating loop: 1..numGratings. -/
def gratingPresentIdx (numGratings : Int) : List Nat :=
  (List.range numGratings.toNat).map (fun k => k + 1)

/-- Indices visited by the absent-marking loop: numGratings..MAX_GRATINGS-1. -/
def gratingAbsentIdx (numGratings : Int) : List Int :=
  (List.range ((MAX_GRATINGS : Int) - numGratings).toNat).map (fun k => numGratings + k)

/-- shamrock::shamrock (lines 129-249): the constructor.  SDK init failure,
a failed device count query, zero devices, a failed GetDetector or a failed
GetPixelSize each return early with the object left as built (`st0` is the
freshly constructed, not yet filled state).  Otherwise the pixel geometry is
pushed and re-queried, the calibration buffer is allocated zero-filled,
slit presence, grating data and flipper presence are cached, getStatus runs
(result ignored) and every address is published. -/
def shamrockCtor (dev : InitDevice) (rdev : Device) (junk : Junk) (st0 : DriverState) :
    DriverState × List Event :=
  let ev0 := [Event.sdkInitCall]
  if dev.sdkInitOk = false then (st0, ev0) else
  let ev1 := ev0 ++ [Event.numberDevicesQuery]
  match dev.numberDevicesRes with
  | none => (st0, ev1)
  | some numDevices =>
    if numDevices < 1 then (st0, ev1) else
    let ev2 := ev1 ++ [Event.detectorQuery]
    match dev.getDetectorRes with
    | none => (st0, ev2)
    | some wh =>
      let ev3 := ev2 ++ [Event.setNumberPixelsCall wh.1, Event.pixelSizeQuery]
      match dev.getPixelSizeRes with
      | none => (st0, ev3)
      | some xy =>
        let ev4 := ev3 ++ [Event.setPixelWidthCall xy.1, Event.numberPixelsQuery,
          Event.pixelWidthQuery]
        let nPix := match dev.numberPixelsRes with
          | some n => n
          | none => junk.numPixels
        let stA := { st0 with numPixels := nPix, calibration := List.replicate nPix 0 }
        let rs := ctorSlitLoop dev (List.range MAX_SLITS) stA junk.present
        let ev5 := ev4 ++ rs.2.1 ++ [Event.numberGratingsQuery]
        let numGratings : Int := match dev.numberGratingsRes with
          | some n => n
          | none => junk.numGratings
        let stB := setIntP rs.1 0 IntParam.SRNumGratings numGratings
        let rg := ctorGratingLoop dev (gratingPresentIdx numGratings) stB
          junk.minWavelength junk.maxWavelength
        let stC := ctorMarkAbsent (gratingAbsentIdx numGratings) rg.1
        let rf := ctorFlipperLoop dev (List.range MAX_FLIPPER_MIRRORS) stC junk.numFlipperStatus
        let ev6 := ev5 ++ rg.2.1 ++ rf.2.1
        let rStat := getStatus rdev rf.1
        (rStat.1, ev6 ++ rStat.2.1 ++ (List.range MAX_ADDR).map Event.callParamCallbacks)

/-- Is an event one of the four SDK set calls? -/
def isSetEvent : Event → Bool
  | Event.setGratingCall _ => true
  | Event.setFlipperMirrorCall _ _ => true
  | Event.setWavelengthCall _ => true
  | Event.setSlitWidthCall _ _ => true
  | _ => false

/-- Is an event one of the five SDK reads performed by getStatus? -/
def isGetQuery : Event → Bool
  | Event.getFlipperMirrorQuery _ => true
  | Event.getGratingQuery => true
  | Event.getWavelengthQuery => true
  | Event.getSlitWidthQuery _ => true
  | Event.getCalibrationQuery => true
  | _ => false

/-- Does this getStatus read fail on the given device? -/
def readFailed (dev : Device) : Event → Bool
  | Event.getFlipperMirrorQuery i => (dev.getFlipperMirrorRes i).isNone
  | Event.getGratingQuery => dev.getGratingRes.isNone
  | Event.getWavelengthQuery => dev.getWavelengthRes.isNone
  | Event.getSlitWidthQuery i => (dev.getSlitWidthRes i).isNone
  | Event.getCalibrationQuery => dev.getCalibrationRes.isNone
  | _ => false

/-! Basic lemmas about the parameter-library setters. -/

theorem clampAddr_natCast (a : Nat) : clampAddr (a : Int) = a := by
  simp [clampAddr]

@[simp] theorem setIntP_slitIsPresent (st : DriverState) (a : Nat) (p : IntParam) (v : Int) :
    (setIntP st a p v).slitIsPresent = st.slitIsPresent := by
  unfold setIntP setIntParamN; split <;> rfl

@[simp] theorem setIntP_flipperMirrorIsPresent (st : DriverState) (a : Nat) (p : IntParam) (v : Int) :
    (setIntP st a p v).flipperMirrorIsPresent = st.flipperMirrorIsPresent := by
  unfold setIntP setIntParamN; split <;> rfl

@[simp] theorem setIntP_numPixels (st : DriverState) (a : Nat) (p : IntParam) (v : Int) :
    (setIntP st a p v).numPixels = st.numPixels := by
  unfold setIntP setIntParamN; split <;> rfl

@[simp] theorem setIntP_calibration (st : DriverState) (a : Nat) (p : IntParam) (v : Int) :
    (setIntP st a p v).calibration = st.calibration := by
  unfold setIntP setIntParamN; split <;> rfl

@[simp] theorem setIntP_floatParams (st : DriverState) (a : Nat) (p : IntParam) (v : Int) :
    (setIntP st a p v).floatParams = st.floatParams := by
  unfold setIntP setIntParamN; split <;> rfl

@[simp] theorem setFloatP_slitIsPresent (st : DriverState) (a : Nat) (p : FloatParam) (v : Rat) :
    (setFloatP st a p v).slitIsPresent = st.slitIsPresent := by
  unfold setFloatP setFloatParamN; split <;> rfl

@[simp] theorem setFloatP_flipperMirrorIsPresent (st : DriverState) (a : Nat) (p : FloatParam) (v : Rat) :
    (setFloatP st a p v).flipperMirrorIsPresent = st.flipperMirrorIsPresent := by
  unfold setFloatP setFloatParamN; split <;> rfl

@[simp] theorem setFloatP_numPixels (st : DriverState) (a : Nat) (p : FloatParam) (v : Rat) :
    (setFloatP st a p v).numPixels = st.numPixels := by
  unfold setFloatP setFloatParamN; split <;> rfl

@[simp] theorem setFloatP_calibration (st : DriverState) (a : Nat) (p : FloatParam) (v : Rat) :
    (setFloatP st a p v).calibration = st.calibration := by
  unfold setFloatP setFloatParamN; split <;> rfl

@[simp] theorem setFloatP_intParams (st : DriverState) (a : Nat) (p : FloatParam) (v : Rat) :
    (setFloatP st a p v).intParams = st.intParams := by
  unfold setFloatP setFloatParamN; split <;> rfl

theorem setIntP_intParams_same (st : DriverState) (a : Nat) (p : IntParam) (v : Int)
    (h : a < MAX_ADDR) : (setIntP st a p v).intParams a p = v := by
  unfold setIntP setIntParamN
  rw [if_pos h]
  simp

theorem setIntP_intParams_ne_param (st : DriverState) (a b : Nat) (p q : IntParam) (v : Int)
    (h : q ≠ p) : (setIntP st a p v).intParams b q = st.intParams b q := by
  unfold setIntP setIntParamN
  split <;> simp [h]

theorem setIntP_intParams_ne_addr (st : DriverState) (a b : Nat) (p q : IntParam) (v : Int)
    (h : b ≠ a) : (setIntP st a p v).intParams b q = st.intParams b q := by
  unfold setIntP setIntParamN
  split <;> simp [h]

theorem setFloatP_floatParams_same (st : DriverState) (a : Nat) (p : FloatParam) (v : Rat)
    (h : a < MAX_ADDR) : (setFloatP st a p v).floatParams a p = v := by
  unfold setFloatP setFloatParamN
  rw [if_pos h]
  simp

theorem setFloatP_floatParams_ne_param (st : DriverState) (a b : Nat) (p q : FloatParam) (v : Rat)
    (h : q ≠ p) : (setFloatP st a p v).floatParams b q = st.floatParams b q := by
  unfold setFloatP setFloatParamN
  split <;> simp [h]

theorem setFloatP_floatParams_ne_addr (st : DriverState) (a b : Nat) (p q : FloatParam) (v : Rat)
    (h : b ≠ a) : (setFloatP st a p v).floatParams b q = st.floatParams b q := by
  unfold setFloatP setFloatParamN
  split <;> simp [h]

/-! Preservation lemmas for the getStatus loops. -/

theorem getFlipperLoop_fields (dev : Device) (l : List Nat) (st : DriverState) :
    (getFlipperLoop dev l st).1.slitIsPresent = st.slitIsPresent
    ∧ (getFlipperLoop dev l st).1.flipperMirrorIsPresent = st.flipperMirrorIsPresent
    ∧ (getFlipperLoop dev l st).1.numPixels = st.numPixels
    ∧ (getFlipperLoop dev l st).1.calibration = st.calibration
    ∧ (getFlipperLoop dev l st).1.floatParams = st.floatParams := by
  induction l generalizing st with
  | nil => simp [getFlipperLoop]
  | cons i rest ih =>
    simp only [getFlipperLoop]
    by_cases h : st.flipperMirrorIsPresent i = false
    · simp only [if_pos h]
      exact ih st
    · simp only [if_neg h]
      cases hr : dev.getFlipperMirrorRes i with
      | none => simp
      | some port =>
        have := ih (setIntP st i IntParam.SRFlipperMirrorPort port)
        simpa using this

theorem getSlitLoop_fields (dev : Device) (l : List Nat) (st : DriverState) :
    (getSlitLoop dev l st).1.slitIsPresent = st.slitIsPresent
    ∧ (getSlitLoop dev l st).1.flipperMirrorIsPresent = st.flipperMirrorIsPresent
    ∧ (getSlitLoop dev l st).1.numPixels = st.numPixels
    ∧ (getSlitLoop dev l st).1.calibration = st.calibration
    ∧ (getSlitLoop dev l st).1.intParams = st.intParams := by
  induction l generalizing st with
  | nil => simp [getSlitLoop]
  | cons i rest ih =>
    simp only [getSlitLoop]
    by_cases h : (setFloatP st i FloatParam.SRSlitSize 0).slitIsPresent i = false
    · simp only [if_pos h]
      have := ih (setFloatP st i FloatParam.SRSlitSize 0)
      simpa using this
    · simp only [if_neg h]
      cases hr : dev.getSlitWidthRes i with
      | none => simp
      | some w =>
        have := ih (setFloatP (setFloatP st i FloatParam.SRSlitSize 0) i FloatParam.SRSlitSize w)
        simpa using this

theorem setIntP_ge (st : DriverState) (a : Nat) (p : IntParam) (v : Int)
    (h : ¬ a < MAX_ADDR) : setIntP st a p v = st := by
  unfold setIntP setIntParamN
  rw [if_neg h]

theorem setFloatP_ge (st : DriverState) (a : Nat) (p : FloatParam) (v : Rat)
    (h : ¬ a < MAX_ADDR) : setFloatP st a p v = st := by
  unfold setFloatP setFloatParamN
  rw [if_neg h]

/-- getStatus does not change the presence flags nor the pixel count. -/
theorem getStatus_fields (dev : Device) (st : DriverState) :
    (getStatus dev st).1.slitIsPresent = st.slitIsPresent
    ∧ (getStatus dev st).1.flipperMirrorIsPresent = st.flipperMirrorIsPresent
    ∧ (getStatus dev st).1.numPixels = st.numPixels := by
  have hf := getFlipperLoop_fields dev (List.range MAX_FLIPPER_MIRRORS) st
  simp only [getStatus]
  by_cases h1 : (getFlipperLoop dev (List.range MAX_FLIPPER_MIRRORS) st).2.2 = false
  · rw [if_pos h1]
    exact ⟨hf.1, hf.2.1, hf.2.2.1⟩
  · rw [if_neg h1]
    cases hg : dev.getGratingRes with
    | none => exact ⟨hf.1, hf.2.1, hf.2.2.1⟩
    | some grating =>
      dsimp only
      cases hw : dev.getWavelengthRes with
      | none => exact ⟨by simp [hf.1], by simp [hf.2.1], by simp [hf.2.2.1]⟩
      | some wl =>
        dsimp only
        have hs := getSlitLoop_fields dev (List.range MAX_SLITS)
          (setFloatP (setIntP (getFlipperLoop dev (List.range MAX_FLIPPER_MIRRORS) st).1
            0 IntParam.SRGrating grating) 0 FloatParam.SRWavelength wl)
        by_cases h2 : (getSlitLoop dev (List.range MAX_SLITS)
            (setFloatP (setIntP (getFlipperLoop dev (List.range MAX_FLIPPER_MIRRORS) st).1
              0 IntParam.SRGrating grating) 0 FloatParam.SRWavelength wl)).2.2 = false
        · rw [if_pos h2]
          exact ⟨by simp [hs.1, hf.1], by simp [hs.2.1, hf.2.1], by simp [hs.2.2.1, hf.2.2.1]⟩
        · rw [if_neg h2]
          cases hc : dev.getCalibrationRes with
          | none =>
            exact ⟨by simp [hs.1, hf.1], by simp [hs.2.1, hf.2.1], by simp [hs.2.2.1, hf.2.2.1]⟩
          | some f =>
            dsimp only
            refine ⟨?_, ?_, ?_⟩
            · simp [hs.1, hf.1]
            · simp [hs.2.1, hf.2.1]
            · simp [hs.2.2.1, hf.2.2.1]

/-- The flipper loop emits only flipper-port read events. -/
theorem getFlipperLoop_events (dev : Device) (l : List Nat) (st : DriverState) :
    ∀ e ∈ (getFlipperLoop dev l st).2.1, ∃ i, e = Event.getFlipperMirrorQuery i := by
  induction l generalizing st with
  | nil => simp [getFlipperLoop]
  | cons i rest ih =>
    simp only [getFlipperLoop]
    by_cases h : st.flipperMirrorIsPresent i = false
    · rw [if_pos h]
      exact ih st
    · rw [if_neg h]
      cases hr : dev.getFlipperMirrorRes i with
      | none =>
        intro e he
        simp only [List.mem_singleton] at he
        exact ⟨i, he⟩
      | some port =>
        intro e he
        simp only [List.mem_cons] at he
        rcases he with rfl | he
        · exact ⟨i, rfl⟩
        · exact ih _ e he

/-- The slit loop emits only slit-width read events. -/
theorem getSlitLoop_events (dev : Device) (l : List Nat) (st : DriverState) :
    ∀ e ∈ (getSlitLoop dev l st).2.1, ∃ i, e = Event.getSlitWidthQuery i := by
  induction l generalizing st with
  | nil => simp [getSlitLoop]
  | cons i rest ih =>
    simp only [getSlitLoop]
    split
    · exact ih _
    · cases hr : dev.getSlitWidthRes i with
      | none =>
        intro e he
        simp only [List.mem_singleton] at he
        exact ⟨i, he⟩
      | some w =>
        intro e he
        simp only [List.mem_cons] at he
        rcases he with rfl | he
        · exact ⟨i, rfl⟩
        · exact ih _ e he

/-- If every present flipper mirror in the list can be read, the flipper
loop succeeds. -/
theorem getFlipperLoop_ok (dev : Device) (l : List Nat) (st : DriverState)
    (h : ∀ i ∈ l, st.flipperMirrorIsPresent i = true → (dev.getFlipperMirrorRes i).isSome) :
    (getFlipperLoop dev l st).2.2 = true := by
  induction l generalizing st with
  | nil => rfl
  | cons i rest ih =>
    simp only [getFlipperLoop]
    by_cases hp : st.flipperMirrorIsPresent i = false
    · rw [if_pos hp]
      exact ih st (fun j hj => h j (List.mem_cons_of_mem _ hj))
    · rw [if_neg hp]
      have hpres : st.flipperMirrorIsPresent i = true := by
        cases hb : st.flipperMirrorIsPresent i
        · exact absurd hb hp
        · rfl
      have hsome := h i (List.mem_cons_self i rest) hpres
      cases hr : dev.getFlipperMirrorRes i with
      | none => rw [hr] at hsome; simp at hsome
      | some port =>
        exact ih _ (fun j hj hpj => h j (List.mem_cons_of_mem _ hj) (by simpa using hpj))

/-- If every present slit in the list can be read, the slit loop succeeds. -/
theorem getSlitLoop_ok (dev : Device) (l : List Nat) (st : DriverState)
    (h : ∀ i ∈ l, st.slitIsPresent i = true → (dev.getSlitWidthRes i).isSome) :
    (getSlitLoop dev l st).2.2 = true := by
  induction l generalizing st with
  | nil => rfl
  | cons i rest ih =>
    simp only [getSlitLoop]
    by_cases hp : (setFloatP st i FloatParam.SRSlitSize 0).slitIsPresent i = false
    · rw [if_pos hp]
      exact ih _ (fun j hj hpj => h j (List.mem_cons_of_mem _ hj) (by simpa using hpj))
    · rw [if_neg hp]
      have hpres : st.slitIsPresent i = true := by
        cases hb : st.slitIsPresent i
        · exact absurd (by simpa using hb) hp
        · rfl
      have hsome := h i (List.mem_cons_self i rest) hpres
      cases hr : dev.getSlitWidthRes i with
      | none => rw [hr] at hsome; simp at hsome
      | some w =>
        exact ih _ (fun j hj hpj => h j (List.mem_cons_of_mem _ hj) (by simpa using hpj))

/-- The flipper loop never writes the cached port of an absent mirror. -/
theorem getFlipperLoop_port_preserved (dev : Device) (l : List Nat) (st : DriverState) (a : Nat)
    (hp : st.flipperMirrorIsPresent a = false) :
    (getFlipperLoop dev l st).1.intParams a IntParam.SRFlipperMirrorPort
      = st.intParams a IntParam.SRFlipperMirrorPort := by
  induction l generalizing st with
  | nil => rfl
  | cons i rest ih =>
    simp only [getFlipperLoop]
    by_cases h : st.flipperMirrorIsPresent i = false
    · rw [if_pos h]
      exact ih st hp
    · rw [if_neg h]
      cases hr : dev.getFlipperMirrorRes i with
      | none => rfl
      | some port =>
        have hai : a ≠ i := by
          intro he
          rw [he] at hp
          exact h hp
        have := ih (setIntP st i IntParam.SRFlipperMirrorPort port) (by simpa using hp)
        rw [this, setIntP_intParams_ne_addr _ _ _ _ _ _ hai]

/-- Once an absent slit's cached width is 0, the slit loop keeps it 0. -/
theorem getSlitLoop_zero_preserved (dev : Device) (l : List Nat) (st : DriverState) (a : Nat)
    (hp : st.slitIsPresent a = false)
    (h0 : st.floatParams a FloatParam.SRSlitSize = 0) :
    (getSlitLoop dev l st).1.floatParams a FloatParam.SRSlitSize = 0 := by
  induction l generalizing st with
  | nil => exact h0
  | cons i rest ih =>
    simp only [getSlitLoop]
    have h0' : (setFloatP st i FloatParam.SRSlitSize 0).floatParams a FloatParam.SRSlitSize = 0 := by
      by_cases hia : a = i
      · subst hia
        by_cases hlt : a < MAX_ADDR
        · exact setFloatP_floatParams_same st a _ 0 hlt
        · rw [setFloatP_ge st a _ 0 hlt]
          exact h0
      · rw [setFloatP_floatParams_ne_addr _ _ _ _ _ _ hia]
        exact h0
    by_cases hb : (setFloatP st i FloatParam.SRSlitSize 0).slitIsPresent i = false
    · rw [if_pos hb]
      exact ih _ (by simpa using hp) h0'
    · rw [if_neg hb]
      have hai : a ≠ i := by
        intro he
        rw [he] at hp
        exact hb (by simpa using hp)
      cases hr : dev.getSlitWidthRes i with
      | none => exact h0'
      | some w =>
        have h0'' : (setFloatP (setFloatP st i FloatParam.SRSlitSize 0) i
            FloatParam.SRSlitSize w).floatParams a FloatParam.SRSlitSize = 0 := by
          rw [setFloatP_floatParams_ne_addr _ _ _ _ _ _ hai]
          exact h0'
        exact ih _ (by simpa using hp) h0''

/-- If the slit loop reaches an absent slit (every present slit before it in
the list can be read), the absent slit's cached width ends up 0. -/
theorem getSlitLoop_zero (dev : Device) (l : List Nat) (st : DriverState) (a : Nat)
    (halt : a < MAX_ADDR) (ha : a ∈ l) (hp : st.slitIsPresent a = false)
    (hOK : ∀ j ∈ l, st.slitIsPresent j = true → (dev.getSlitWidthRes j).isSome) :
    (getSlitLoop dev l st).1.floatParams a FloatParam.SRSlitSize = 0 := by
  induction l generalizing st with
  | nil => exact absurd ha (List.not_mem_nil a)
  | cons i rest ih =>
    simp only [getSlitLoop]
    by_cases hia : i = a
    · subst hia
      have h0' : (setFloatP st i FloatParam.SRSlitSize 0).floatParams i FloatParam.SRSlitSize = 0 :=
        setFloatP_floatParams_same st i _ 0 halt
      rw [if_pos (by simpa using hp)]
      exact getSlitLoop_zero_preserved dev rest _ i (by simpa using hp) h0'
    · have ha' : a ∈ rest := by
        rcases List.mem_cons.mp ha with h | h
        · exact absurd h.symm hia
        · exact h
      by_cases hb : (setFloatP st i FloatParam.SRSlitSize 0).slitIsPresent i = false
      · rw [if_pos hb]
        exact ih _ ha' (by simpa using hp)
          (fun j hj hpj => hOK j (List.mem_cons_of_mem _ hj) (by simpa using hpj))
      · rw [if_neg hb]
        have hpres : st.slitIsPresent i = true := by
          cases hc : st.slitIsPresent i
          · exact absurd (by simpa using hc) hb
          · rfl
        have hsome := hOK i (List.mem_cons_self i rest) hpres
        cases hr : dev.getSlitWidthRes i with
        | none => rw [hr] at hsome; simp at hsome
        | some w =>
          exact ih _ ha' (by simpa using hp)
            (fun j hj hpj => hOK j (List.mem_cons_of_mem _ hj) (by simpa using hpj))

theorem getFlipperLoop_noSet (dev : Device) (l : List Nat) (st : DriverState) :
    ∀ e ∈ (getFlipperLoop dev l st).2.1, isSetEvent e = false := by
  intro e he
  obtain ⟨i, rfl⟩ := getFlipperLoop_events dev l st e he
  rfl

theorem getSlitLoop_noSet (dev : Device) (l : List Nat) (st : DriverState) :
    ∀ e ∈ (getSlitLoop dev l st).2.1, isSetEvent e = false := by
  intro e he
  obtain ⟨i, rfl⟩ := getSlitLoop_events dev l st e he
  rfl

/-- A successful flipper loop emits only reads that succeeded. -/
theorem getFlipperLoop_trace_ok (dev : Device) (l : List Nat) (st : DriverState)
    (h : (getFlipperLoop dev l st).2.2 = true) :
    ∀ e ∈ (getFlipperLoop dev l st).2.1, isGetQuery e = true ∧ readFailed dev e = false := by
  induction l generalizing st with
  | nil => simp [getFlipperLoop]
  | cons i rest ih =>
    simp only [getFlipperLoop] at h ⊢
    by_cases hp : st.flipperMirrorIsPresent i = false
    · rw [if_pos hp] at h ⊢
      exact ih st h
    · rw [if_neg hp] at h ⊢
      cases hr : dev.getFlipperMirrorRes i with
      | none =>
        rw [hr] at h
        simp at h
      | some port =>
        rw [hr] at h
        dsimp only at h ⊢
        intro e he
        rcases List.mem_cons.mp he with rfl | he
        · exact ⟨rfl, by simp [readFailed, hr]⟩
        · exact ih _ h e he

/-- A failed flipper loop emits some successful reads and then exactly the
one read that failed, and stops. -/
theorem getFlipperLoop_trace_fail (dev : Device) (l : List Nat) (st : DriverState)
    (h : (getFlipperLoop dev l st).2.2 = false) :
    ∃ pre e, (getFlipperLoop dev l st).2.1 = pre ++ [e]
      ∧ isGetQuery e = true ∧ readFailed dev e = true
      ∧ ∀ x ∈ pre, isGetQuery x = true ∧ readFailed dev x = false := by
  induction l generalizing st with
  | nil => simp [getFlipperLoop] at h
  | cons i rest ih =>
    simp only [getFlipperLoop] at h ⊢
    by_cases hp : st.flipperMirrorIsPresent i = false
    · rw [if_pos hp] at h ⊢
      exact ih st h
    · rw [if_neg hp] at h ⊢
      cases hr : dev.getFlipperMirrorRes i with
      | none =>
        exact ⟨[], Event.getFlipperMirrorQuery i, by simp, rfl, by simp [readFailed, hr], by simp⟩
      | some port =>
        rw [hr] at h
        dsimp only at h ⊢
        obtain ⟨pre, e, htr, hq, hfail, hpre⟩ := ih _ h
        refine ⟨Event.getFlipperMirrorQuery i :: pre, e, by rw [htr]; rfl, hq, hfail, ?_⟩
        intro x hx
        rcases List.mem_cons.mp hx with rfl | hx
        · exact ⟨rfl, by simp [readFailed, hr]⟩
        · exact hpre x hx

/-- A successful slit loop emits only reads that succeeded. -/
theorem getSlitLoop_trace_ok (dev : Device) (l : List Nat) (st : DriverState)
    (h : (getSlitLoop dev l st).2.2 = true) :
    ∀ e ∈ (getSlitLoop dev l st).2.1, isGetQuery e = true ∧ readFailed dev e = false := by
  induction l generalizing st with
  | nil => simp [getSlitLoop]
  | cons i rest ih =>
    simp only [getSlitLoop] at h ⊢
    by_cases hp : (setFloatP st i FloatParam.SRSlitSize 0).slitIsPresent i = false
    · rw [if_pos hp] at h ⊢
      exact ih _ h
    · rw [if_neg hp] at h ⊢
      cases hr : dev.getSlitWidthRes i with
      | none =>
        rw [hr] at h
        simp at h
      | some w =>
        rw [hr] at h
        dsimp only at h ⊢
        intro e he
        rcases List.mem_cons.mp he with rfl | he
        · exact ⟨rfl, by simp [readFailed, hr]⟩
        · exact ih _ h e he

/-- A failed slit loop emits some successful reads and then exactly the one
read that failed, and stops. -/
theorem getSlitLoop_trace_fail (dev : Device) (l : List Nat) (st : DriverState)
    (h : (getSlitLoop dev l st).2.2 = false) :
    ∃ pre e, (getSlitLoop dev l st).2.1 = pre ++ [e]
      ∧ isGetQuery e = true ∧ readFailed dev e = true
      ∧ ∀ x ∈ pre, isGetQuery x = true ∧ readFailed dev x = false := by
  induction l generalizing st with
  | nil => simp [getSlitLoop] at h
  | cons i rest ih =>
    simp only [getSlitLoop] at h ⊢
    by_cases hp : (setFloatP st i FloatParam.SRSlitSize 0).slitIsPresent i = false
    · rw [if_pos hp] at h ⊢
      exact ih _ h
    · rw [if_neg hp] at h ⊢
      cases hr : dev.getSlitWidthRes i with
      | none =>
        exact ⟨[], Event.getSlitWidthQuery i, by simp, rfl, by simp [readFailed, hr], by simp⟩
      | some w =>
        rw [hr] at h
        dsimp only at h ⊢
        obtain ⟨pre, e, htr, hq, hfail, hpre⟩ := ih _ h
        refine ⟨Event.getSlitWidthQuery i :: pre, e, by rw [htr]; rfl, hq, hfail, ?_⟩
        intro x hx
        rcases List.mem_cons.mp hx with rfl | hx
        · exact ⟨rfl, by simp [readFailed, hr]⟩
        · exact hpre x hx

/-- getStatus makes no SDK set call: its whole trace is free of set events. -/
theorem getStatus_trace_noSet (dev : Device) (st : DriverState) :
    ∀ e ∈ (getStatus dev st).2.1, isSetEvent e = false := by
  simp only [getStatus]
  by_cases h1 : (getFlipperLoop dev (List.range MAX_FLIPPER_MIRRORS) st).2.2 = false
  · rw [if_pos h1]
    exact getFlipperLoop_noSet dev _ st
  · rw [if_neg h1]
    have hfl := getFlipperLoop_noSet dev (List.range MAX_FLIPPER_MIRRORS) st
    cases hg : dev.getGratingRes with
    | none =>
      exact List.forall_mem_append.mpr ⟨hfl, by simp [isSetEvent]⟩
    | some grating =>
      dsimp only
      cases hw : dev.getWavelengthRes with
      | none =>
        exact List.forall_mem_append.mpr ⟨List.forall_mem_append.mpr ⟨hfl, by simp [isSetEvent]⟩,
          by simp [isSetEvent]⟩
      | some wl =>
        dsimp only
        have hsl := getSlitLoop_noSet dev (List.range MAX_SLITS)
          (setFloatP (setIntP (getFlipperLoop dev (List.range MAX_FLIPPER_MIRRORS) st).1
            0 IntParam.SRGrating grating) 0 FloatParam.SRWavelength wl)
        by_cases h2 : (getSlitLoop dev (List.range MAX_SLITS)
            (setFloatP (setIntP (getFlipperLoop dev (List.range MAX_FLIPPER_MIRRORS) st).1
              0 IntParam.SRGrating grating) 0 FloatParam.SRWavelength wl)).2.2 = false
        · rw [if_pos h2]
          exact List.forall_mem_append.mpr
            ⟨List.forall_mem_append.mpr ⟨List.forall_mem_append.mpr ⟨hfl, by simp [isSetEvent]⟩,
              by simp [isSetEvent]⟩, hsl⟩
        · rw [if_neg h2]
          have hbase : ∀ e ∈ ((getFlipperLoop dev (List.range MAX_FLIPPER_MIRRORS) st).2.1
                ++ [Event.getGratingQuery] ++ [Event.getWavelengthQuery]
                ++ (getSlitLoop dev (List.range MAX_SLITS)
                  (setFloatP (setIntP (getFlipperLoop dev (List.range MAX_FLIPPER_MIRRORS) st).1
                    0 IntParam.SRGrating grating) 0 FloatParam.SRWavelength wl)).2.1
                ++ [Event.getCalibrationQuery]),
              isSetEvent e = false := by
            exact List.forall_mem_append.mpr
              ⟨List.forall_mem_append.mpr
                ⟨List.forall_mem_append.mpr ⟨List.forall_mem_append.mpr ⟨hfl, by simp [isSetEvent]⟩,
                  by simp [isSetEvent]⟩, hsl⟩, by simp [isSetEvent]⟩
          cases hc : dev.getCalibrationRes with
          | none => exact hbase
          | some f =>
            dsimp only
            refine List.forall_mem_append.mpr ⟨List.forall_mem_append.mpr ⟨hbase, ?_⟩, ?_⟩
            · intro e he
              obtain ⟨i, hi, rfl⟩ := List.mem_map.mp he
              rfl
            · simp [isSetEvent]

/-- C8: In the status-refresh routine, any single SDK read failure (flipper
mirror port, grating, wavelength, slit width or calibration table) makes
getStatus return an error at once: its trace is a run of successful reads
followed by exactly the one failed read — no further read, no parameter
callback and no array publication happen in that invocation. -/
theorem getStatus_failFast (dev : Device) (st : DriverState)
    (h : (getStatus dev st).2.2 = AsynStatus.error) :
    ∃ pre e, (getStatus dev st).2.1 = pre ++ [e]
      ∧ isGetQuery e = true ∧ readFailed dev e = true
      ∧ ∀ x ∈ pre, isGetQuery x = true ∧ readFailed dev x = false := by
  simp only [getStatus] at h ⊢
  by_cases h1 : (getFlipperLoop dev (List.range MAX_FLIPPER_MIRRORS) st).2.2 = false
  · rw [if_pos h1] at h ⊢
    exact getFlipperLoop_trace_fail dev _ st h1
  · rw [if_neg h1] at h ⊢
    have h1t : (getFlipperLoop dev (List.range MAX_FLIPPER_MIRRORS) st).2.2 = true := by
      cases hb : (getFlipperLoop dev (List.range MAX_FLIPPER_MIRRORS) st).2.2
      · exact absurd hb h1
      · rfl
    have hfl := getFlipperLoop_trace_ok dev _ st h1t
    cases hg : dev.getGratingRes with
    | none =>
      exact ⟨(getFlipperLoop dev (List.range MAX_FLIPPER_MIRRORS) st).2.1,
        Event.getGratingQuery, rfl, rfl, by simp [readFailed, hg], hfl⟩
    | some grating =>
      rw [hg] at h
      dsimp only at h ⊢
      cases hw : dev.getWavelengthRes with
      | none =>
        refine ⟨(getFlipperLoop dev (List.range MAX_FLIPPER_MIRRORS) st).2.1
            ++ [Event.getGratingQuery], Event.getWavelengthQuery, rfl, rfl,
          by simp [readFailed, hw], ?_⟩
        intro x hx
        rcases List.mem_append.mp hx with hx | hx
        · exact hfl x hx
        · have hxe := List.mem_singleton.mp hx
          subst hxe
          exact ⟨rfl, by simp [readFailed, hg]⟩
      | some wl =>
        rw [hw] at h
        dsimp only at h ⊢
        by_cases h2 : (getSlitLoop dev (List.range MAX_SLITS)
            (setFloatP (setIntP (getFlipperLoop dev (List.range MAX_FLIPPER_MIRRORS) st).1
              0 IntParam.SRGrating grating) 0 FloatParam.SRWavelength wl)).2.2 = false
        · rw [if_pos h2] at h ⊢
          obtain ⟨pre, e, htr, hq, hfail, hpre⟩ := getSlitLoop_trace_fail dev _ _ h2
          refine ⟨((getFlipperLoop dev (List.range MAX_FLIPPER_MIRRORS) st).2.1
              ++ [Event.getGratingQuery] ++ [Event.getWavelengthQuery]) ++ pre, e, ?_, hq, hfail, ?_⟩
          · rw [htr]
            simp [List.append_assoc]
          · intro x hx
            rcases List.mem_append.mp hx with hx | hx
            · rcases List.mem_append.mp hx with hx2 | hx2
              · rcases List.mem_append.mp hx2 with hx3 | hx3
                · exact hfl x hx3
                · have hxe := List.mem_singleton.mp hx3
                  subst hxe
                  exact ⟨rfl, by simp [readFailed, hg]⟩
              · have hxe := List.mem_singleton.mp hx2
                subst hxe
                exact ⟨rfl, by simp [readFailed, hw]⟩
            · exact hpre x hx
        · rw [if_neg h2] at h ⊢
          have h2t : (getSlitLoop dev (List.range MAX_SLITS)
              (setFloatP (setIntP (getFlipperLoop dev (List.range MAX_FLIPPER_MIRRORS) st).1
                0 IntParam.SRGrating grating) 0 FloatParam.SRWavelength wl)).2.2 = true := by
            cases hb : (getSlitLoop dev (List.range MAX_SLITS)
                (setFloatP (setIntP (getFlipperLoop dev (List.range MAX_FLIPPER_MIRRORS) st).1
                  0 IntParam.SRGrating grating) 0 FloatParam.SRWavelength wl)).2.2
            · exact absurd hb h2
            · rfl
          have hsl := getSlitLoop_trace_ok dev _ _ h2t
          cases hc : dev.getCalibrationRes with
          | none =>
            refine ⟨(getFlipperLoop dev (List.range MAX_FLIPPER_MIRRORS) st).2.1
                ++ [Event.getGratingQuery] ++ [Event.getWavelengthQuery]
                ++ (getSlitLoop dev (List.range MAX_SLITS)
                  (setFloatP (setIntP (getFlipperLoop dev (List.range MAX_FLIPPER_MIRRORS) st).1
                    0 IntParam.SRGrating grating) 0 FloatParam.SRWavelength wl)).2.1,
              Event.getCalibrationQuery, rfl, rfl, by simp [readFailed, hc], ?_⟩
            intro x hx
            rcases List.mem_append.mp hx with hx | hx
            · rcases List.mem_append.mp hx with hx2 | hx2
              · rcases List.mem_append.mp hx2 with hx3 | hx3
                · exact hfl x hx3
                · have hxe := List.mem_singleton.mp hx3
                  subst hxe
                  exact ⟨rfl, by simp [readFailed, hg]⟩
              · have hxe := List.mem_singleton.mp hx2
                subst hxe
                exact ⟨rfl, by simp [readFailed, hw]⟩
            · exact hsl x hx
          | some f =>
            rw [hc] at h
            dsimp only at h
            exact absurd h (by simp)

/-- C3: After every status refresh that completes successfully (with a
positive pixel count), the cached minimum wavelength at address 0 is the
first entry of the refreshed calibration table and the cached maximum
wavelength at address 0 is its last entry (indices 0 and numPixels-1) —
never a fitted value; the refreshed table has exactly numPixels entries. -/
theorem getStatus_minMax (dev : Device) (st : DriverState)
    (hok : (getStatus dev st).2.2 = AsynStatus.success) (hn : 0 < st.numPixels) :
    (getStatus dev st).1.calibration.head?
        = some ((getStatus dev st).1.floatParams 0 FloatParam.SRMinWavelength)
    ∧ (getStatus dev st).1.calibration.getLast?
        = some ((getStatus dev st).1.floatParams 0 FloatParam.SRMaxWavelength)
    ∧ (getStatus dev st).1.calibration.length = st.numPixels := by
  simp only [getStatus] at hok ⊢
  by_cases h1 : (getFlipperLoop dev (List.range MAX_FLIPPER_MIRRORS) st).2.2 = false
  · rw [if_pos h1] at hok
    exact absurd hok (by simp)
  · rw [if_neg h1] at hok ⊢
    cases hg : dev.getGratingRes with
    | none =>
      rw [hg] at hok
      exact absurd hok (by simp)
    | some grating =>
      rw [hg] at hok
      dsimp only at hok ⊢
      cases hw : dev.getWavelengthRes with
      | none =>
        rw [hw] at hok
        exact absurd hok (by simp)
      | some wl =>
        rw [hw] at hok
        dsimp only at hok ⊢
        by_cases h2 : (getSlitLoop dev (List.range MAX_SLITS)
            (setFloatP (setIntP (getFlipperLoop dev (List.range MAX_FLIPPER_MIRRORS) st).1
              0 IntParam.SRGrating grating) 0 FloatParam.SRWavelength wl)).2.2 = false
        · rw [if_pos h2] at hok
          exact absurd hok (by simp)
        · rw [if_neg h2] at hok ⊢
          cases hc : dev.getCalibrationRes with
          | none =>
            rw [hc] at hok
            exact absurd hok (by simp)
          | some f =>
            dsimp only
            have hf := getFlipperLoop_fields dev (List.range MAX_FLIPPER_MIRRORS) st
            have hs := getSlitLoop_fields dev (List.range MAX_SLITS)
              (setFloatP (setIntP (getFlipperLoop dev (List.range MAX_FLIPPER_MIRRORS) st).1
                0 IntParam.SRGrating grating) 0 FloatParam.SRWavelength wl)
            have hnum : (getSlitLoop dev (List.range MAX_SLITS)
                (setFloatP (setIntP (getFlipperLoop dev (List.range MAX_FLIPPER_MIRRORS) st).1
                  0 IntParam.SRGrating grating) 0 FloatParam.SRWavelength wl)).1.numPixels
                = st.numPixels := by
              rw [hs.2.2.1]
              simp [hf.2.2.1]
            obtain ⟨m, hm⟩ : ∃ m, st.numPixels = m + 1 :=
              ⟨st.numPixels - 1, (Nat.succ_pred_eq_of_pos hn).symm⟩
            rw [setFloatP_calibration, setFloatP_calibration]
            rw [setFloatP_floatParams_same _ _ _ _ (by decide : (0:Nat) < MAX_ADDR)]
            rw [setFloatP_floatParams_ne_param _ _ _ _ _ _
              (by decide : FloatParam.SRMinWavelength ≠ FloatParam.SRMaxWavelength)]
            rw [setFloatP_floatParams_same _ _ _ _ (by decide : (0:Nat) < MAX_ADDR)]
            refine ⟨?_, ?_, ?_⟩
            · show ((List.range _).map f).head? = some (f 0)
              rw [hnum, hm, List.range_succ_eq_map]
              simp
            · show ((List.range _).map f).getLast? = some (f _)
              rw [hnum, hm, List.range_succ]
              rw [List.map_append]
              simp
            · show ((List.range _).map f).length = st.numPixels
              rw [hnum]
              simp

/-- C9: The slit and flipper-mirror presence flags determined during
construction are never modified afterwards: writeInt32, writeFloat64, the
status refresh and the calibration read-back all leave slitIsPresent_ and
flipperMirrorIsPresent_ exactly as they were. -/
theorem presenceFlags_immutable (dev : Device) (st : DriverState)
    (f : IntParam) (g : FloatParam) (fa : Float32ArrayParam)
    (addrIn : Int) (v : Int) (w : Rat) (nElements nInPrev : Nat) (pValue : List Rat) :
    ((writeInt32 dev st f addrIn v).1.slitIsPresent = st.slitIsPresent
      ∧ (writeInt32 dev st f addrIn v).1.flipperMirrorIsPresent = st.flipperMirrorIsPresent)
    ∧ ((writeFloat64 dev st g addrIn w).1.slitIsPresent = st.slitIsPresent
      ∧ (writeFloat64 dev st g addrIn w).1.flipperMirrorIsPresent = st.flipperMirrorIsPresent)
    ∧ ((getStatus dev st).1.slitIsPresent = st.slitIsPresent
      ∧ (getStatus dev st).1.flipperMirrorIsPresent = st.flipperMirrorIsPresent)
    ∧ ((readFloat32Array st fa nElements pValue nInPrev).1.slitIsPresent = st.slitIsPresent
      ∧ (readFloat32Array st fa nElements pValue nInPrev).1.flipperMirrorIsPresent
          = st.flipperMirrorIsPresent) := by
  refine ⟨⟨?_, ?_⟩, ⟨?_, ?_⟩, ⟨(getStatus_fields dev st).1, (getStatus_fields dev st).2.1⟩, ?_, ?_⟩
  · show (getStatus dev (setIntParamN st (clampAddr addrIn) f v).1).1.slitIsPresent = _
    rw [(getStatus_fields dev _).1]
    exact setIntP_slitIsPresent st _ f v
  · show (getStatus dev (setIntParamN st (clampAddr addrIn) f v).1).1.flipperMirrorIsPresent = _
    rw [(getStatus_fields dev _).2.1]
    exact setIntP_flipperMirrorIsPresent st _ f v
  · show (getStatus dev (setFloatParamN st (clampAddr addrIn) g w).1).1.slitIsPresent = _
    rw [(getStatus_fields dev _).1]
    exact setFloatP_slitIsPresent st _ g w
  · show (getStatus dev (setFloatParamN st (clampAddr addrIn) g w).1).1.flipperMirrorIsPresent = _
    rw [(getStatus_fields dev _).2.1]
    exact setFloatP_flipperMirrorIsPresent st _ g w
  · cases fa <;> rfl
  · cases fa <;> rfl

/-- C4: A calibration-array read copies exactly min(nElements, numPixels)
entries of the cached calibration buffer into the caller's array, reports
that count in nIn, makes no SDK call, and the count never exceeds either
the caller capacity or the resolved pixel count. -/
theorem readFloat32Array_truncates (st : DriverState) (nElements nInPrev : Nat)
    (pValue : List Rat) (hlen : st.calibration.length = st.numPixels) :
    (readFloat32Array st Float32ArrayParam.SRCalibration nElements pValue nInPrev).2.2.1
        = min nElements st.numPixels
    ∧ (readFloat32Array st Float32ArrayParam.SRCalibration nElements pValue nInPrev).2.1.take
        (min nElements st.numPixels) = st.calibration.take (min nElements st.numPixels)
    ∧ (st.calibration.take (min nElements st.numPixels)).length = min nElements st.numPixels
    ∧ min nElements st.numPixels ≤ nElements
    ∧ min nElements st.numPixels ≤ st.numPixels
    ∧ (readFloat32Array st Float32ArrayParam.SRCalibration nElements pValue nInPrev).2.2.2.2
        = [] := by
  have hmin : (if nElements < st.numPixels then nElements else st.numPixels)
      = min nElements st.numPixels := by
    rcases Nat.lt_or_ge nElements st.numPixels with h | h
    · rw [if_pos h, Nat.min_eq_left (Nat.le_of_lt h)]
    · rw [if_neg (Nat.not_lt.mpr h), Nat.min_eq_right h]
  have hlen' : (st.calibration.take (min nElements st.numPixels)).length
      = min nElements st.numPixels := by
    rw [List.length_take, hlen]
    exact Nat.min_eq_left (Nat.min_le_right _ _)
  simp only [readFloat32Array]
  rw [hmin]
  refine ⟨rfl, ?_, hlen', Nat.min_le_left _ _, Nat.min_le_right _ _, trivial⟩
  rw [List.take_append_eq_append_take, hlen', Nat.sub_self, List.take_zero,
    List.append_nil, List.take_take, Nat.min_self]

/-- C5: Every writeInt32 and every writeFloat64 invocation — for every
parameter kind, recognized or not, and whatever the forwarded SDK set-call
returns — runs the full status-refresh routine on the state that already
contains the provisional cache write: the resulting driver state is exactly
getStatus of that provisionally written state, and the refresh trace is
embedded in the write's trace before the final per-address publication. -/
theorem writes_always_refresh (dev : Device) (st : DriverState) (f : IntParam) (g : FloatParam)
    (a : Nat) (v : Int) (w : Rat) (ha : a < MAX_ADDR) :
    ((writeInt32 dev st f (a : Int) v).1 = (getStatus dev (setIntP st a f v)).1
      ∧ (setIntP st a f v).intParams a f = v
      ∧ ∃ evAct s, writeInt32 dev st f (a : Int) v
          = ((getStatus dev (setIntP st a f v)).1,
             evAct ++ (getStatus dev (setIntP st a f v)).2.1 ++ [Event.callParamCallbacks a], s))
    ∧ ((writeFloat64 dev st g (a : Int) w).1 = (getStatus dev (setFloatP st a g w)).1
      ∧ (setFloatP st a g w).floatParams a g = w
      ∧ ∃ evAct s, writeFloat64 dev st g (a : Int) w
          = ((getStatus dev (setFloatP st a g w)).1,
             evAct ++ (getStatus dev (setFloatP st a g w)).2.1 ++ [Event.callParamCallbacks a], s)) := by
  have hca : clampAddr (a : Int) = a := clampAddr_natCast a
  constructor
  · simp only [writeInt32]
    rw [hca]
    exact ⟨rfl, setIntP_intParams_same st a f v ha, ⟨_, _, rfl⟩⟩
  · simp only [writeFloat64]
    rw [hca]
    exact ⟨rfl, setFloatP_floatParams_same st a g w ha, ⟨_, _, rfl⟩⟩

/-- getStatus never writes the cached port of an absent flipper mirror. -/
theorem getStatus_port_preserved (dev : Device) (st : DriverState) (a : Nat)
    (hp : st.flipperMirrorIsPresent a = false) :
    (getStatus dev st).1.intParams a IntParam.SRFlipperMirrorPort
      = st.intParams a IntParam.SRFlipperMirrorPort := by
  have hport := getFlipperLoop_port_preserved dev (List.range MAX_FLIPPER_MIRRORS) st a hp
  simp only [getStatus]
  by_cases h1 : (getFlipperLoop dev (List.range MAX_FLIPPER_MIRRORS) st).2.2 = false
  · rw [if_pos h1]
    exact hport
  · rw [if_neg h1]
    cases hg : dev.getGratingRes with
    | none => exact hport
    | some grating =>
      dsimp only
      have hgr : (setIntP (getFlipperLoop dev (List.range MAX_FLIPPER_MIRRORS) st).1
          0 IntParam.SRGrating grating).intParams a IntParam.SRFlipperMirrorPort
          = st.intParams a IntParam.SRFlipperMirrorPort := by
        rw [setIntP_intParams_ne_param _ _ _ _ _ _
          (by decide : IntParam.SRFlipperMirrorPort ≠ IntParam.SRGrating), hport]
      cases hw : dev.getWavelengthRes with
      | none => exact hgr
      | some wl =>
        dsimp only
        have hsl := (getSlitLoop_fields dev (List.range MAX_SLITS)
          (setFloatP (setIntP (getFlipperLoop dev (List.range MAX_FLIPPER_MIRRORS) st).1
            0 IntParam.SRGrating grating) 0 FloatParam.SRWavelength wl)).2.2.2.2
        have h3 : (getSlitLoop dev (List.range MAX_SLITS)
            (setFloatP (setIntP (getFlipperLoop dev (List.range MAX_FLIPPER_MIRRORS) st).1
              0 IntParam.SRGrating grating) 0 FloatParam.SRWavelength wl)).1.intParams a
            IntParam.SRFlipperMirrorPort = st.intParams a IntParam.SRFlipperMirrorPort := by
          rw [hsl, setFloatP_intParams, hgr]
        by_cases h2 : (getSlitLoop dev (List.range MAX_SLITS)
            (setFloatP (setIntP (getFlipperLoop dev (List.range MAX_FLIPPER_MIRRORS) st).1
              0 IntParam.SRGrating grating) 0 FloatParam.SRWavelength wl)).2.2 = false
        · rw [if_pos h2]
          exact h3
        · rw [if_neg h2]
          cases hc : dev.getCalibrationRes with
          | none => exact h3
          | some f =>
            dsimp only
            rw [setFloatP_intParams, setFloatP_intParams]
            exact h3

/-- When every read it needs up to and including the slit loop succeeds,
getStatus leaves an absent slit's cached width at 0 (whether or not the
final calibration read succeeds). -/
theorem getStatus_absentSlit_zero (dev : Device) (st : DriverState) (a : Nat)
    (ha : a < MAX_SLITS) (hp : st.slitIsPresent a = false)
    (hFl : ∀ i, i < MAX_FLIPPER_MIRRORS → st.flipperMirrorIsPresent i = true →
      (dev.getFlipperMirrorRes i).isSome)
    (hG : dev.getGratingRes.isSome) (hW : dev.getWavelengthRes.isSome)
    (hS : ∀ j, j < MAX_SLITS → st.slitIsPresent j = true → (dev.getSlitWidthRes j).isSome) :
    (getStatus dev st).1.floatParams a FloatParam.SRSlitSize = 0 := by
  have hflok : (getFlipperLoop dev (List.range MAX_FLIPPER_MIRRORS) st).2.2 = true :=
    getFlipperLoop_ok dev _ st (fun i hi => hFl i (List.mem_range.mp hi))
  obtain ⟨grating, hg⟩ := Option.isSome_iff_exists.mp hG
  obtain ⟨wl, hw⟩ := Option.isSome_iff_exists.mp hW
  simp only [getStatus]
  rw [if_neg (by simp [hflok])]
  rw [hg]
  dsimp only
  rw [hw]
  dsimp only
  have hfl1 := (getFlipperLoop_fields dev (List.range MAX_FLIPPER_MIRRORS) st).1
  have hp3 : (setFloatP (setIntP (getFlipperLoop dev (List.range MAX_FLIPPER_MIRRORS) st).1
      0 IntParam.SRGrating grating) 0 FloatParam.SRWavelength wl).slitIsPresent a = false := by
    simp [hfl1, hp]
  have hS3 : ∀ j ∈ List.range MAX_SLITS,
      (setFloatP (setIntP (getFlipperLoop dev (List.range MAX_FLIPPER_MIRRORS) st).1
        0 IntParam.SRGrating grating) 0 FloatParam.SRWavelength wl).slitIsPresent j = true →
      (dev.getSlitWidthRes j).isSome := by
    intro j hj hpj
    refine hS j (List.mem_range.mp hj) ?_
    simpa [hfl1] using hpj
  have hz := getSlitLoop_zero dev (List.range MAX_SLITS) _ a
    (lt_of_lt_of_le ha (by decide)) (List.mem_range.mpr ha) hp3 hS3
  by_cases h2 : (getSlitLoop dev (List.range MAX_SLITS)
      (setFloatP (setIntP (getFlipperLoop dev (List.range MAX_FLIPPER_MIRRORS) st).1
        0 IntParam.SRGrating grating) 0 FloatParam.SRWavelength wl)).2.2 = false
  · rw [if_pos h2]
    exact hz
  · rw [if_neg h2]
    cases hc : dev.getCalibrationRes with
    | none => exact hz
    | some f =>
      dsimp only
      rw [setFloatP_floatParams_ne_param _ _ _ _ _ _
        (by decide : FloatParam.SRSlitSize ≠ FloatParam.SRMaxWavelength)]
      rw [setFloatP_floatParams_ne_param _ _ _ _ _ _
        (by decide : FloatParam.SRSlitSize ≠ FloatParam.SRMinWavelength)]
      exact hz

/-- C1 (amended): A writeInt32 with the flipper-mirror-port kind on an
address whose presence flag is false makes no SDK set-flipper-mirror call,
but the provisional cache write still happens and survives the refresh
(which skips absent mirrors), so the cached port value for that address
ends up equal to the written value, not unchanged. -/
theorem writeInt32_absentFlipper (dev : Device) (st : DriverState) (a : Nat) (v : Int)
    (ha : a < MAX_FLIPPER_MIRRORS) (hp : st.flipperMirrorIsPresent a = false) :
    (writeInt32 dev st IntParam.SRFlipperMirrorPort (a : Int) v).1.intParams a
        IntParam.SRFlipperMirrorPort = v
    ∧ ∀ i p, Event.setFlipperMirrorCall i p
        ∉ (writeInt32 dev st IntParam.SRFlipperMirrorPort (a : Int) v).2.1 := by
  have ha4 : a < MAX_ADDR := lt_of_lt_of_le ha (by decide)
  simp only [writeInt32]
  rw [clampAddr_natCast]
  have hpres : (setIntParamN st a IntParam.SRFlipperMirrorPort v).1.flipperMirrorIsPresent a
      = false :=
    (congrFun (setIntP_flipperMirrorIsPresent st a IntParam.SRFlipperMirrorPort v) a).trans hp
  rw [if_neg (by simp [hpres])]
  constructor
  · rw [getStatus_port_preserved dev _ a hpres]
    exact setIntP_intParams_same st a IntParam.SRFlipperMirrorPort v ha4
  · intro i p hm
    rcases List.mem_append.mp hm with hm | hm
    · rcases List.mem_append.mp hm with hm | hm
      · exact absurd hm (List.not_mem_nil _)
      · have := getStatus_trace_noSet dev _ _ hm
        simp [isSetEvent] at this
    · have := List.mem_singleton.mp hm
      exact Event.noConfusion this

/-- C6: A writeFloat64 with the slit-width kind on an address whose slit
presence flag is false makes no SDK set-slit-width call, and once the
subsequent refresh reaches (and completes) the slit-reading step, the
cached width for that address is 0, the value the refresh stores for
absent slits — regardless of whether the final calibration read succeeds. -/
theorem writeFloat64_absentSlit (dev : Device) (st : DriverState) (a : Nat) (v : Rat)
    (ha : a < MAX_SLITS) (hp : st.slitIsPresent a = false)
    (hFl : ∀ i, i < MAX_FLIPPER_MIRRORS → st.flipperMirrorIsPresent i = true →
      (dev.getFlipperMirrorRes i).isSome)
    (hG : dev.getGratingRes.isSome) (hW : dev.getWavelengthRes.isSome)
    (hS : ∀ j, j < MAX_SLITS → st.slitIsPresent j = true → (dev.getSlitWidthRes j).isSome) :
    (writeFloat64 dev st FloatParam.SRSlitSize (a : Int) v).1.floatParams a
        FloatParam.SRSlitSize = 0
    ∧ ∀ i w, Event.setSlitWidthCall i w
        ∉ (writeFloat64 dev st FloatParam.SRSlitSize (a : Int) v).2.1 := by
  simp only [writeFloat64]
  rw [clampAddr_natCast]
  have hpres : (setFloatParamN st a FloatParam.SRSlitSize v).1.slitIsPresent a = false :=
    (congrFun (setFloatP_slitIsPresent st a FloatParam.SRSlitSize v) a).trans hp
  rw [if_neg (by simp [hpres])]
  constructor
  · refine getStatus_absentSlit_zero dev _ a ha hpres ?_ hG hW ?_
    · intro i hi hpi
      exact hFl i hi
        ((congrFun (setFloatP_flipperMirrorIsPresent st a FloatParam.SRSlitSize v) i).symm.trans hpi)
    · intro j hj hpj
      exact hS j hj
        ((congrFun (setFloatP_slitIsPresent st a FloatParam.SRSlitSize v) j).symm.trans hpj)
  · intro i w hm
    rcases List.mem_append.mp hm with hm | hm
    · rcases List.mem_append.mp hm with hm | hm
      · exact absurd hm (List.not_mem_nil _)
      · have := getStatus_trace_noSet dev _ _ hm
        simp [isSetEvent] at this
    · have := List.mem_singleton.mp hm
      exact Event.noConfusion this

theorem setIntParamN_status (st : DriverState) (a : Nat) (p : IntParam) (v : Int)
    (h : a < MAX_ADDR) : (setIntParamN st a p v).2 = AsynStatus.success := by
  unfold setIntParamN
  rw [if_pos h]

theorem setFloatParamN_status (st : DriverState) (a : Nat) (p : FloatParam) (v : Rat)
    (h : a < MAX_ADDR) : (setFloatParamN st a p v).2 = AsynStatus.success := by
  unfold setFloatParamN
  rw [if_pos h]

/-- C10: The status a write returns reflects only the provisional cache
write and the forwarded SDK set-call; the refresh outcome is discarded.
Whenever the SDK set-call succeeds — or the kind is unrecognized, or the
guarded call is skipped because the mirror/slit is absent — the write
returns success, for every device, including one whose refresh fails. -/
theorem writeStatus_ignoresRefresh (dev : Device) (st : DriverState) (a : Nat) (v : Int) (w : Rat)
    (ha : a < MAX_ADDR) :
    (dev.setGratingOk v = true →
        (writeInt32 dev st IntParam.SRGrating (a : Int) v).2.2 = AsynStatus.success)
    ∧ (st.flipperMirrorIsPresent a = true → dev.setFlipperMirrorOk a v = true →
        (writeInt32 dev st IntParam.SRFlipperMirrorPort (a : Int) v).2.2 = AsynStatus.success)
    ∧ (st.flipperMirrorIsPresent a = false →
        (writeInt32 dev st IntParam.SRFlipperMirrorPort (a : Int) v).2.2 = AsynStatus.success)
    ∧ (∀ f, f ≠ IntParam.SRGrating → f ≠ IntParam.SRFlipperMirrorPort →
        (writeInt32 dev st f (a : Int) v).2.2 = AsynStatus.success)
    ∧ (dev.setWavelengthOk w = true →
        (writeFloat64 dev st FloatParam.SRWavelength (a : Int) w).2.2 = AsynStatus.success)
    ∧ (st.slitIsPresent a = true → dev.setSlitWidthOk a w = true →
        (writeFloat64 dev st FloatParam.SRSlitSize (a : Int) w).2.2 = AsynStatus.success)
    ∧ (st.slitIsPresent a = false →
        (writeFloat64 dev st FloatParam.SRSlitSize (a : Int) w).2.2 = AsynStatus.success)
    ∧ (∀ g, g ≠ FloatParam.SRWavelength → g ≠ FloatParam.SRSlitSize →
        (writeFloat64 dev st g (a : Int) w).2.2 = AsynStatus.success) := by
  have hifl : (setIntParamN st a IntParam.SRFlipperMirrorPort v).1.flipperMirrorIsPresent a
      = st.flipperMirrorIsPresent a :=
    congrFun (setIntP_flipperMirrorIsPresent st a IntParam.SRFlipperMirrorPort v) a
  have hslt : (setFloatParamN st a FloatParam.SRSlitSize w).1.slitIsPresent a
      = st.slitIsPresent a :=
    congrFun (setFloatP_slitIsPresent st a FloatParam.SRSlitSize w) a
  refine ⟨?_, ?_, ?_, ?_, ?_, ?_, ?_, ?_⟩
  · intro hok
    simp only [writeInt32]
    simp [checkError, hok]
  · intro hpres hok
    simp only [writeInt32]
    rw [clampAddr_natCast, hifl, hpres]
    simp [checkError, hok]
  · intro hpres
    simp only [writeInt32]
    rw [clampAddr_natCast, hifl, hpres]
    rw [if_neg (by simp)]
    exact setIntParamN_status st a _ v ha
  · intro f h1 h2
    cases f
    case SRGrating => exact absurd rfl h1
    case SRFlipperMirrorPort => exact absurd rfl h2
    all_goals
      simp only [writeInt32]
      rw [clampAddr_natCast]
      exact setIntParamN_status st a _ v ha
  · intro hok
    simp only [writeFloat64]
    simp [checkError, hok]
  · intro hpres hok
    simp only [writeFloat64]
    rw [clampAddr_natCast, hslt, hpres]
    simp [checkError, hok]
  · intro hpres
    simp only [writeFloat64]
    rw [clampAddr_natCast, hslt, hpres]
    rw [if_neg (by simp)]
    exact setFloatParamN_status st a _ w ha
  · intro g h1 h2
    cases g
    case SRWavelength => exact absurd rfl h1
    case SRSlitSize => exact absurd rfl h2
    all_goals
      simp only [writeFloat64]
      rw [clampAddr_natCast]
      exact setFloatParamN_status st a _ w ha

/-- C7: If SDK boot fails, or the device-count query fails, or it reports
fewer than one device, the constructor returns before any presence query,
any status refresh and any publication: the state is exactly the freshly
constructed one and the whole trace is just the one or two boot calls —
no parameter callback, no array publication, no presence query, no read. -/
theorem ctor_earlyFailure_inert (dev : InitDevice) (rdev : Device) (junk : Junk)
    (st0 : DriverState)
    (h : dev.sdkInitOk = false ∨ dev.numberDevicesRes = none
      ∨ ∃ n, dev.numberDevicesRes = some n ∧ n < 1) :
    (shamrockCtor dev rdev junk st0).1 = st0
    ∧ ((shamrockCtor dev rdev junk st0).2 = [Event.sdkInitCall]
        ∨ (shamrockCtor dev rdev junk st0).2 = [Event.sdkInitCall, Event.numberDevicesQuery])
    ∧ (∀ ad, Event.callParamCallbacks ad ∉ (shamrockCtor dev rdev junk st0).2)
    ∧ Event.publishCalibrationArray ∉ (shamrockCtor dev rdev junk st0).2
    ∧ (∀ i, Event.slitPresentQuery i ∉ (shamrockCtor dev rdev junk st0).2)
    ∧ (∀ i, Event.flipperPresentQuery i ∉ (shamrockCtor dev rdev junk st0).2)
    ∧ (∀ e ∈ (shamrockCtor dev rdev junk st0).2, isGetQuery e = false) := by
  have key : (shamrockCtor dev rdev junk st0).1 = st0
      ∧ ((shamrockCtor dev rdev junk st0).2 = [Event.sdkInitCall]
        ∨ (shamrockCtor dev rdev junk st0).2 = [Event.sdkInitCall, Event.numberDevicesQuery]) := by
    by_cases hsdk : dev.sdkInitOk = false
    · simp only [shamrockCtor]
      rw [if_pos hsdk]
      exact ⟨rfl, Or.inl rfl⟩
    · simp only [shamrockCtor]
      rw [if_neg hsdk]
      rcases h with h | h | ⟨n, hn, hlt⟩
      · exact absurd h hsdk
      · rw [h]
        exact ⟨rfl, Or.inr rfl⟩
      · rw [hn]
        dsimp only
        rw [if_pos hlt]
        exact ⟨rfl, Or.inr rfl⟩
  refine ⟨key.1, key.2, ?_, ?_, ?_, ?_, ?_⟩ <;> rcases key.2 with htr | htr <;> rw [htr]
  · intro ad
    simp
  · intro ad
    simp
  · simp
  · simp
  · intro i
    simp
  · intro i
    simp
  · intro i
    simp
  · intro i
    simp
  · intro e he
    have := List.mem_singleton.mp he
    subst this
    rfl
  · intro e he
    rcases List.mem_cons.mp he with rfl | he
    · rfl
    · have := List.mem_singleton.mp he
      subst this
      rfl

/-- A freshly built driver state: nothing present, empty calibration, all
parameters 0. -/
def initSt : DriverState where
  slitIsPresent := fun _ => false
  flipperMirrorIsPresent := fun _ => false
  numPixels := 0
  calibration := []
  intParams := fun _ _ => 0
  floatParams := fun _ _ => 0

/-- A run-time device on which every SDK call succeeds. -/
def okDev : Device where
  setGratingOk := fun _ => true
  setFlipperMirrorOk := fun _ _ => true
  setWavelengthOk := fun _ => true
  setSlitWidthOk := fun _ _ => true
  getFlipperMirrorRes := fun _ => some 1
  getGratingRes := some 1
  getWavelengthRes := some 500
  getSlitWidthRes := fun _ => some 10
  getCalibrationRes := some (fun i => (i : Rat))

/-- A run-time device whose grating read fails, so every refresh fails. -/
def badDev : Device := { okDev with getGratingRes := none }

/-- A constructor-time device reporting 2 gratings, every query succeeding. -/
def twoGratingsInit : InitDevice where
  sdkInitOk := true
  numberDevicesRes := some 1
  getDetectorRes := some (4, 3)
  setNumberPixelsOk := true
  getPixelSizeRes := some (10, 10)
  setPixelWidthOk := true
  numberPixelsRes := some 4
  pixelWidthRes := some 10
  slitPresentRes := fun _ => some 1
  numberGratingsRes := some 2
  wavelengthLimitsRes := fun _ => some (100, 900)
  flipperPresentRes := fun _ => some 1

/-- A constructor-time device whose SDK boot call fails. -/
def failInit : InitDevice := { twoGratingsInit with sdkInitOk := false }

/-- Arbitrary concrete junk for the constructor's uninitialized locals. -/
def someJunk : Junk where
  present := 0
  numFlipperStatus := 0
  numGratings := 0
  minWavelength := 0
  maxWavelength := 0
  numPixels := 0

/-- A state with a two-entry calibration buffer. -/
def pixSt : DriverState := { initSt with numPixels := 2, calibration := [0, 0] }

/-- A state with a three-entry calibration buffer holding 5, 6, 7. -/
def calSt : DriverState := { initSt with numPixels := 3, calibration := [5, 6, 7] }

/-- C1 (counterexample): on a device with both mirrors absent, writing port
value 5 at flipper address 0 leaves the no-SDK-call half of the claim true
but changes the cached port value from 0 to 5 — it is not left unchanged. -/
theorem writeInt32_absentFlipper_cex :
    initSt.flipperMirrorIsPresent 0 = false
    ∧ initSt.intParams 0 IntParam.SRFlipperMirrorPort = 0
    ∧ (writeInt32 okDev initSt IntParam.SRFlipperMirrorPort 0 5).1.intParams 0
        IntParam.SRFlipperMirrorPort = 5 :=
  ⟨rfl, rfl, by decide⟩

/-- C2: constructed against a device that reports 2 gratings with every
query succeeding, the driver ends with the grating-exists flag at address 1
set to 1 but the flag at address 2 — a grating the device does have — set
to 0: the absent-marking loop starts at numGratings instead of
numGratings+1 and overwrites the last real grating's flag (and address 3 is
never marked at all). -/
theorem ctor_twoGratings_offByOne :
    twoGratingsInit.numberGratingsRes = some 2
    ∧ (shamrockCtor twoGratingsInit okDev someJunk initSt).1.intParams 1
        IntParam.SRGratingExists = 1
    ∧ (shamrockCtor twoGratingsInit okDev someJunk initSt).1.intParams 2
        IntParam.SRGratingExists = 0 :=
  ⟨rfl, by decide, by decide⟩

theorem writeInt32_absentFlipper_witness :
    (1 : Nat) < MAX_FLIPPER_MIRRORS
    ∧ initSt.flipperMirrorIsPresent 1 = false
    ∧ ((writeInt32 okDev initSt IntParam.SRFlipperMirrorPort ((1 : Nat) : Int) 7).1.intParams 1
          IntParam.SRFlipperMirrorPort = 7
      ∧ ∀ i p, Event.setFlipperMirrorCall i p
          ∉ (writeInt32 okDev initSt IntParam.SRFlipperMirrorPort ((1 : Nat) : Int) 7).2.1) :=
  ⟨by decide, by decide, writeInt32_absentFlipper okDev initSt 1 7 (by decide) (by decide)⟩

theorem getStatus_minMax_witness :
    (getStatus okDev pixSt).2.2 = AsynStatus.success
    ∧ 0 < pixSt.numPixels
    ∧ ((getStatus okDev pixSt).1.calibration.head?
          = some ((getStatus okDev pixSt).1.floatParams 0 FloatParam.SRMinWavelength)
      ∧ (getStatus okDev pixSt).1.calibration.getLast?
          = some ((getStatus okDev pixSt).1.floatParams 0 FloatParam.SRMaxWavelength)
      ∧ (getStatus okDev pixSt).1.calibration.length = pixSt.numPixels) :=
  ⟨by decide, by decide, getStatus_minMax okDev pixSt (by decide) (by decide)⟩

theorem readFloat32Array_truncates_witness :
    calSt.calibration.length = calSt.numPixels
    ∧ ((readFloat32Array calSt Float32ArrayParam.SRCalibration 2 [0, 0] 0).2.2.1
          = min 2 calSt.numPixels
      ∧ (readFloat32Array calSt Float32ArrayParam.SRCalibration 2 [0, 0] 0).2.1.take
          (min 2 calSt.numPixels) = calSt.calibration.take (min 2 calSt.numPixels)
      ∧ (calSt.calibration.take (min 2 calSt.numPixels)).length = min 2 calSt.numPixels
      ∧ min 2 calSt.numPixels ≤ 2
      ∧ min 2 calSt.numPixels ≤ calSt.numPixels
      ∧ (readFloat32Array calSt Float32ArrayParam.SRCalibration 2 [0, 0] 0).2.2.2.2 = []) :=
  ⟨by decide, readFloat32Array_truncates calSt 2 0 [0, 0] (by decide)⟩

theorem writes_always_refresh_witness :
    (1 : Nat) < MAX_ADDR
    ∧ (((writeInt32 okDev initSt IntParam.SRGrating ((1 : Nat) : Int) 2).1
          = (getStatus okDev (setIntP initSt 1 IntParam.SRGrating 2)).1
        ∧ (setIntP initSt 1 IntParam.SRGrating 2).intParams 1 IntParam.SRGrating = 2
        ∧ ∃ evAct s, writeInt32 okDev initSt IntParam.SRGrating ((1 : Nat) : Int) 2
            = ((getStatus okDev (setIntP initSt 1 IntParam.SRGrating 2)).1,
               evAct ++ (getStatus okDev (setIntP initSt 1 IntParam.SRGrating 2)).2.1
                 ++ [Event.callParamCallbacks 1], s))
      ∧ ((writeFloat64 okDev initSt FloatParam.SRWavelength ((1 : Nat) : Int) 42).1
          = (getStatus okDev (setFloatP initSt 1 FloatParam.SRWavelength 42)).1
        ∧ (setFloatP initSt 1 FloatParam.SRWavelength 42).floatParams 1
            FloatParam.SRWavelength = 42
        ∧ ∃ evAct s, writeFloat64 okDev initSt FloatParam.SRWavelength ((1 : Nat) : Int) 42
            = ((getStatus okDev (setFloatP initSt 1 FloatParam.SRWavelength 42)).1,
               evAct ++ (getStatus okDev (setFloatP initSt 1 FloatParam.SRWavelength 42)).2.1
                 ++ [Event.callParamCallbacks 1], s))) :=
  ⟨by decide,
    writes_always_refresh okDev initSt IntParam.SRGrating FloatParam.SRWavelength 1 2 42
      (by decide)⟩

theorem writeFloat64_absentSlit_witness :
    (2 : Nat) < MAX_SLITS
    ∧ initSt.slitIsPresent 2 = false
    ∧ ((writeFloat64 okDev initSt FloatParam.SRSlitSize ((2 : Nat) : Int) 15).1.floatParams 2
          FloatParam.SRSlitSize = 0
      ∧ ∀ i w, Event.setSlitWidthCall i w
          ∉ (writeFloat64 okDev initSt FloatParam.SRSlitSize ((2 : Nat) : Int) 15).2.1) :=
  ⟨by decide, by decide,
    writeFloat64_absentSlit okDev initSt 2 15 (by decide) (by decide)
      (fun i _ hp => Bool.noConfusion hp) (by decide) (by decide)
      (fun j _ hp => Bool.noConfusion hp)⟩

theorem ctor_earlyFailure_inert_witness :
    failInit.sdkInitOk = false
    ∧ ((shamrockCtor failInit okDev someJunk initSt).1 = initSt
      ∧ ((shamrockCtor failInit okDev someJunk initSt).2 = [Event.sdkInitCall]
          ∨ (shamrockCtor failInit okDev someJunk initSt).2
              = [Event.sdkInitCall, Event.numberDevicesQuery])
      ∧ (∀ ad, Event.callParamCallbacks ad ∉ (shamrockCtor failInit okDev someJunk initSt).2)
      ∧ Event.publishCalibrationArray ∉ (shamrockCtor failInit okDev someJunk initSt).2
      ∧ (∀ i, Event.slitPresentQuery i ∉ (shamrockCtor failInit okDev someJunk initSt).2)
      ∧ (∀ i, Event.flipperPresentQuery i ∉ (shamrockCtor failInit okDev someJunk initSt).2)
      ∧ (∀ e ∈ (shamrockCtor failInit okDev someJunk initSt).2, isGetQuery e = false)) :=
  ⟨rfl, ctor_earlyFailure_inert failInit okDev someJunk initSt (Or.inl rfl)⟩

theorem getStatus_failFast_witness :
    (getStatus badDev initSt).2.2 = AsynStatus.error
    ∧ ∃ pre e, (getStatus badDev initSt).2.1 = pre ++ [e]
      ∧ isGetQuery e = true ∧ readFailed badDev e = true
      ∧ ∀ x ∈ pre, isGetQuery x = true ∧ readFailed badDev x = false :=
  ⟨by decide, getStatus_failFast badDev initSt (by decide)⟩

theorem writeStatus_ignoresRefresh_witness :
    (1 : Nat) < MAX_ADDR
    ∧ (getStatus badDev (setIntP initSt 1 IntParam.SRGrating 2)).2.2 = AsynStatus.error
    ∧ (writeInt32 badDev initSt IntParam.SRGrating ((1 : Nat) : Int) 2).2.2
        = AsynStatus.success :=
  ⟨by decide, by decide,
    (writeStatus_ignoresRefresh badDev initSt 1 2 42 (by decide)).1 (by decide)⟩

end Shamrock
